import Mathlib

/-!
Verification of the Telegram video forwarder bot (two Python entry points:
`telegram_video_forwarder.py`, the production variant, and `main.py`, the
Render-adapted variant) against its natural-language specification.

The delivery engine `VideoForwarderBot._forward_with_retry`, the message
classifier inside the new-message handlers, the startup validation and the
relay loop are shallowly embedded as pure Lean functions.  Sleeping is
modelled by recording the requested durations; Telethon exceptions become an
explicit failure datatype; the outside world's response to each forward call
is a trace mapping the attempt number to the failure (or `none` on success).
-/

/-- The Telethon exceptions distinguished by `_forward_with_retry`'s `except`
clauses.  `rpc` is `RPCError` (the generic Telegram API error); `unexpected`
is any exception that is none of the named ones (the final
`except Exception` clause). -/
inductive ForwardFailure
  | floodWait (seconds : Nat)
  | slowMode (seconds : Nat)
  | chatWriteForbidden
  | userBannedInChannel
  | mediaEmpty
  | rpc
  | unexpected
deriving DecidableEq

/-- The delivery outcome taxonomy of the specification (§4.2). -/
inductive Outcome
  | Delivered
  | Abandoned
  | FatalPermission
deriving DecidableEq

/-- Observable effects of one run of `_forward_with_retry`:
the outcome, the increments applied to `self.forwarded_count` and
`self.error_count`, the `asyncio.sleep` durations in order, and the number
of calls made to the forward primitive. -/
structure EngineRun where
  outcome : Outcome
  forwardedInc : Nat
  errorInc : Nat
  sleeps : List Nat
  attemptsMade : Nat
deriving DecidableEq

/-- The successful branch: `forwarded_count += 1`, log, return. -/
def successRun : EngineRun := ⟨.Delivered, 1, 0, [], 1⟩

/-- Effects of a branch that sleeps `w` seconds and then re-enters
`_forward_with_retry`, whose remaining run is `r`. -/
def retryStep (w : Nat) (r : EngineRun) : EngineRun :=
  ⟨r.outcome, r.forwardedInc, r.errorInc, w :: r.sleeps, r.attemptsMade + 1⟩

/-- `FloodWaitError`/`SlowModeWaitError` at the attempt budget: the code has
already slept the server-specified `w` seconds, then `error_count += 1`. -/
def abandonAfterWait (w : Nat) : EngineRun := ⟨.Abandoned, 0, 1, [w], 1⟩

/-- `ChatWriteForbiddenError` / `UserBannedInChannelError`:
`error_count += 1` immediately, no sleep, no retry. -/
def fatalPermissionRun : EngineRun := ⟨.FatalPermission, 0, 1, [], 1⟩

/-- `MediaEmptyError`, exhausted `RPCError`, or the final `except Exception`:
`error_count += 1` immediately, no sleep. -/
def abandonNow : EngineRun := ⟨.Abandoned, 0, 1, [], 1⟩

/-- Worker for `_forward_with_retry`.  `budget` is the number of retries the
guard `attempt < MAX_RETRIES` still allows, i.e. `MAX_RETRIES - attempt`;
recursing on it makes the recursion structural.  `trace attempt` is the
transport's response to the forward call made with that attempt number.
The branch bodies transcribe lines 256-325 of `telegram_video_forwarder.py`:
rate-limit and slow-mode sleep the server wait `w` before consulting the
budget; the generic `RPCError` branch sleeps `RETRY_DELAY * 2 ** (attempt - 1)`
only when it retries; permission errors, empty media and unexpected
exceptions terminate at once. -/
def forwardGo (D : Nat) (trace : Nat → Option ForwardFailure) :
    Nat → Nat → EngineRun
  | budget, attempt =>
    match trace attempt with
    | none => successRun
    | some (.floodWait w) =>
      match budget with
      | b + 1 => retryStep w (forwardGo D trace b (attempt + 1))
      | 0 => abandonAfterWait w
    | some (.slowMode w) =>
      match budget with
      | b + 1 => retryStep w (forwardGo D trace b (attempt + 1))
      | 0 => abandonAfterWait w
    | some .chatWriteForbidden => fatalPermissionRun
    | some .userBannedInChannel => fatalPermissionRun
    | some .mediaEmpty => abandonNow
    | some .rpc =>
      match budget with
      | b + 1 => retryStep (D * 2 ^ (attempt - 1)) (forwardGo D trace b (attempt + 1))
      | 0 => abandonNow
    | some .unexpected => abandonNow

/-- `VideoForwarderBot._forward_with_retry(message, attempt)` with
`MAX_RETRIES = N` and `RETRY_DELAY = D`. -/
def forwardWithRetry (N D : Nat) (trace : Nat → Option ForwardFailure)
    (attempt : Nat) : EngineRun :=
  forwardGo D trace (N - attempt) attempt

/-- Faithfulness of the budget encoding: `forwardWithRetry` satisfies exactly
the recursion of the source, where every retry is guarded by
`attempt < MAX_RETRIES` and re-enters at `attempt + 1`. -/
theorem forwardWithRetry_eq (N D : Nat) (trace : Nat → Option ForwardFailure)
    (a : Nat) :
    forwardWithRetry N D trace a =
      match trace a with
      | none => successRun
      | some (.floodWait w) =>
        if a < N then retryStep w (forwardWithRetry N D trace (a + 1))
        else abandonAfterWait w
      | some (.slowMode w) =>
        if a < N then retryStep w (forwardWithRetry N D trace (a + 1))
        else abandonAfterWait w
      | some .chatWriteForbidden => fatalPermissionRun
      | some .userBannedInChannel => fatalPermissionRun
      | some .mediaEmpty => abandonNow
      | some .rpc =>
        if a < N then
          retryStep (D * 2 ^ (a - 1)) (forwardWithRetry N D trace (a + 1))
        else abandonNow
      | some .unexpected => abandonNow := by
  unfold forwardWithRetry
  rcases Nat.lt_or_ge a N with h | h
  · have hb : N - a = (N - (a + 1)) + 1 := by omega
    rw [hb, forwardGo]
    cases htr : trace a with
    | none => rfl
    | some f =>
      cases f <;> simp [htr, if_pos h]
  · have hb : N - a = 0 := by omega
    have hlt : ¬ a < N := by omega
    rw [hb, forwardGo]
    cases htr : trace a with
    | none => rfl
    | some f =>
      cases f <;> simp [htr, if_neg hlt]

/-! ## Messages and classification -/

/-- `event.message.media`, reduced to what the handlers inspect:
a `MessageMediaDocument` carries `document.mime_type`, which Telethon types
as an optional string. -/
inductive MediaKind
  | document (mime_type : Option String)
  | photo
  | other
deriving DecidableEq

/-- An incoming message: its media (Python `None` when absent) and the Python
truthiness of `event.message.video` (the native video attribute). -/
structure Message where
  media : Option MediaKind
  video : Bool
deriving DecidableEq

/-- Python truthiness of an optional string: `None` and `""` are falsy. -/
def pyTruthyStr : Option String → Bool
  | none => false
  | some s => !s.isEmpty

/-- Classification in the production handler
(`telegram_video_forwarder.py` lines 224-245): early return on falsy media;
a document whose `mime_type` is truthy and starts with `"video/"` gives
label `"video (document)"`; a truthy `message.video` overrides the label to
`"video"`.  Returns the media-kind label when the message qualifies.
Total: an absent or malformed MIME string never raises here. -/
def classifyTvf (m : Message) : Option String :=
  match m.media with
  | none => none
  | some med =>
    let docLabel : Option String :=
      match med with
      | .document mt =>
        if pyTruthyStr mt then
          if (mt.getD "").startsWith "video/" then some "video (document)"
          else none
        else none
      | _ => none
    if m.video then some "video" else docLabel

/-- Classification in the Render handler (`main.py` lines 115-121):
`event.message.video` first, else a `MessageMediaDocument` is tested with
`media.document.mime_type.startswith('video/')` with **no** `None` guard —
when `mime_type` is `None` this is `None.startswith`, an `AttributeError`,
modelled as `Except.error`. -/
def classifyMain (m : Message) : Except Unit Bool :=
  if m.video then .ok true
  else
    match m.media with
    | some (.document none) => .error ()
    | some (.document (some mt)) => .ok (mt.startsWith "video/")
    | _ => .ok false

/-! ## Relay controller -/

/-- The process-wide state of the production `VideoForwarderBot`:
`is_running`, `forwarded_count`, `error_count`. -/
structure BotState where
  is_running : Bool
  forwarded_count : Nat
  error_count : Nat
deriving DecidableEq

/-- Apply an engine run's counter increments to the bot state
(`forwarded_count += 1` on success, `error_count += 1` on each terminal
failure branch). -/
def applyRun (st : BotState) (r : EngineRun) : BotState :=
  { st with
    forwarded_count := st.forwarded_count + r.forwardedInc,
    error_count := st.error_count + r.errorInc }

/-- One notification: the message and the transport's behaviour for the
delivery attempts made for it. -/
def RelayEvent : Type := Message × (Nat → Option ForwardFailure)

/-- The production new-message `handler` (lines 221-254): classify; when
qualifying, run `_forward_with_retry(message)` starting at attempt 1. The
engine is total (its own `except` clauses handle every failure), so the
handler's enclosing `try/except` has nothing to catch in this model and the
handler always returns a state. -/
def handler (N D : Nat) (st : BotState) (ev : RelayEvent) : BotState :=
  match classifyTvf ev.1 with
  | none => st
  | some _ => applyRun st (forwardWithRetry N D ev.2 1)

/-- The running relay: process the notifications in arrival order, one at a
time, each through `handler`; also record, per notification, the delivery
outcome (`none` when the classifier rejected and the engine never ran). -/
def runRelay (N D : Nat) (st : BotState) :
    List RelayEvent → BotState × List (Option Outcome)
  | [] => (st, [])
  | ev :: rest =>
    let st' := handler N D st ev
    let out : Option Outcome :=
      match classifyTvf ev.1 with
      | none => none
      | some _ => some (forwardWithRetry N D ev.2 1).outcome
    let r := runRelay N D st' rest
    (r.1, out :: r.2)

/-- The Render `handle_message` (`main.py` lines 113-129): the whole body is
inside `try/except Exception`, so a classification `AttributeError` or a
failing `forward_to` is logged and swallowed.  `fwdFails` says whether the
`forward_to` call raises.  Result: (forward succeeded, an error was logged);
the function is total — no exception propagates to the caller. -/
def handle_message (fwdFails : Bool) (m : Message) : Bool × Bool :=
  match classifyMain m with
  | .error _ => (false, true)
  | .ok false => (false, false)
  | .ok true => if fwdFails then (false, true) else (true, false)

/-! ## Startup configuration -/

/-- The required environment variables of `telegram_video_forwarder.py`
(`None` for unset). -/
structure ProdConfig where
  api_id : Option String
  api_hash : Option String
  phone_number : Option String
  source_channel : Option String
  dest_channel : Option String
deriving DecidableEq

/-- The `required_vars` dict of `validate_config` (lines 65-71). -/
def requiredVars (c : ProdConfig) : List (String × Option String) :=
  [("TELEGRAM_API_ID", c.api_id), ("TELEGRAM_API_HASH", c.api_hash),
   ("TELEGRAM_PHONE_NUMBER", c.phone_number),
   ("SOURCE_CHANNEL", c.source_channel), ("DEST_CHANNEL", c.dest_channel)]

/-- `missing = [key for key, value in required_vars.items() if not value]`. -/
def missingVars (c : ProdConfig) : List String :=
  ((requiredVars c).filter (fun p => !pyTruthyStr p.2)).map Prod.fst

/-- Why `validate_config` calls `sys.exit(1)`: one or more unset variables
(it prints every element of `missing` before exiting) or a non-numeric
`TELEGRAM_API_ID`. -/
inductive StartupStop
  | missingKeys (keys : List String)
  | apiIdNotNumeric
deriving DecidableEq

/-- Whether the Python `int()` call on this optional string returns normally:
`int(None)` raises `TypeError`, `int(s)` raises `ValueError` unless `s` is a
(decimal) numeral. -/
def pyIntOk : Option String → Bool
  | none => false
  | some s => !s.isEmpty && s.data.all Char.isDigit

/-- `validate_config` (lines 63-87): `some e` means `sys.exit(1)` after the
diagnostic `e`; `none` means validation passed. -/
def validate_config (c : ProdConfig) : Option StartupStop :=
  if missingVars c ≠ [] then some (.missingKeys (missingVars c))
  else if pyIntOk c.api_id then none
  else some .apiIdNotNumeric

/-- Externally visible startup actions of either entry point. -/
inductive Act
  | connect
  | verifyChannels
  | subscribe
  | runLoop
deriving DecidableEq

/-- The production `main()` (lines 348-368): `validate_config()` runs before
the bot is constructed, so a failed validation performs no action at all;
otherwise the bot connects, verifies the channels, registers the handler and
runs (runtime failures after a passed validation are outside these claims). -/
def prodMain (c : ProdConfig) : List Act × Option StartupStop :=
  match validate_config c with
  | some e => ([], some e)
  | none => ([.connect, .verifyChannels, .subscribe, .runLoop], none)

/-- The environment variables `main.py` reads (besides PORT and LOG_LEVEL). -/
structure RenderConfig where
  api_id : Option String
  api_hash : Option String
  session_string : Option String
  source_channel : Option String
  dest_channel : Option String
deriving DecidableEq

/-- Why the Render `start()` calls `sys.exit(1)`: the explicit
`SESSION_STRING` check (the only named missing-key diagnostic), the inner
channel-entity `except` (line 97-100), or the outer blanket
`except Exception` (line 109-111) — the latter two report a single error,
never a list of missing keys. -/
inductive RenderStop
  | missingSessionString
  | entityLoadError
  | criticalError
deriving DecidableEq

/-- The Render `VideoForwarderBot.start` (`main.py` lines 67-111), to the
first fatal stop: `SESSION_STRING` falsy exits before anything; `int(API_ID)`
is evaluated while building the client, so an unset or non-numeric `API_ID`
raises into the outer `except` before connecting; `await self.client.start()`
then connects; `int(SOURCE_CHANNEL)` / `int(DEST_CHANNEL)` raise inside the
entity block **after** the connection. -/
def renderStart (c : RenderConfig) : List Act × Option RenderStop :=
  if ¬ pyTruthyStr c.session_string then ([], some .missingSessionString)
  else if ¬ pyIntOk c.api_id then ([], some .criticalError)
  else if ¬ pyIntOk c.source_channel then ([.connect], some .entityLoadError)
  else if ¬ pyIntOk c.dest_channel then ([.connect], some .entityLoadError)
  else ([.connect, .subscribe, .runLoop], none)

/-! ## Helper lemmas -/

/-- Every run of the engine worker increments exactly one of the two
counters, and it is the forwarded counter iff the run delivered. -/
theorem forwardGo_one_increment (D : Nat) (trace : Nat → Option ForwardFailure) :
    ∀ b a,
      ((forwardGo D trace b a).outcome = .Delivered ∧
        (forwardGo D trace b a).forwardedInc = 1 ∧
        (forwardGo D trace b a).errorInc = 0) ∨
      ((forwardGo D trace b a).outcome ≠ .Delivered ∧
        (forwardGo D trace b a).forwardedInc = 0 ∧
        (forwardGo D trace b a).errorInc = 1) := by
  intro b
  induction b with
  | zero =>
    intro a
    rw [forwardGo]
    cases trace a with
    | none => exact Or.inl ⟨rfl, rfl, rfl⟩
    | some f => cases f <;> exact Or.inr ⟨by simp [abandonAfterWait,
        fatalPermissionRun, abandonNow], rfl, rfl⟩
  | succ b ih =>
    intro a
    rw [forwardGo]
    cases trace a with
    | none => exact Or.inl ⟨rfl, rfl, rfl⟩
    | some f =>
      cases f with
      | floodWait w =>
        rcases ih (a + 1) with ⟨h1, h2, h3⟩ | ⟨h1, h2, h3⟩
        · exact Or.inl ⟨h1, h2, h3⟩
        · exact Or.inr ⟨h1, h2, h3⟩
      | slowMode w =>
        rcases ih (a + 1) with ⟨h1, h2, h3⟩ | ⟨h1, h2, h3⟩
        · exact Or.inl ⟨h1, h2, h3⟩
        · exact Or.inr ⟨h1, h2, h3⟩
      | rpc =>
        rcases ih (a + 1) with ⟨h1, h2, h3⟩ | ⟨h1, h2, h3⟩
        · exact Or.inl ⟨h1, h2, h3⟩
        · exact Or.inr ⟨h1, h2, h3⟩
      | chatWriteForbidden => exact Or.inr ⟨by simp [fatalPermissionRun], rfl, rfl⟩
      | userBannedInChannel => exact Or.inr ⟨by simp [fatalPermissionRun], rfl, rfl⟩
      | mediaEmpty => exact Or.inr ⟨by simp [abandonNow], rfl, rfl⟩
      | unexpected => exact Or.inr ⟨by simp [abandonNow], rfl, rfl⟩

/-- The engine worker makes at most `budget + 1` forward calls. -/
theorem forwardGo_attempts_le (D : Nat) (trace : Nat → Option ForwardFailure) :
    ∀ b a, (forwardGo D trace b a).attemptsMade ≤ b + 1 := by
  intro b
  induction b with
  | zero =>
    intro a
    rw [forwardGo]
    cases trace a with
    | none => exact Nat.le_refl _
    | some f => cases f <;> simp [abandonAfterWait, fatalPermissionRun, abandonNow]
  | succ b ih =>
    intro a
    rw [forwardGo]
    cases trace a with
    | none => simp [successRun]
    | some f =>
      cases f <;>
        simp [retryStep, abandonAfterWait, fatalPermissionRun, abandonNow] <;>
        exact ih (a + 1)

/-- Neither branch of the handler touches `is_running`. -/
theorem handler_preserves_running (N D : Nat) (st : BotState) (ev : RelayEvent) :
    (handler N D st ev).is_running = st.is_running := by
  unfold handler
  cases classifyTvf ev.1 <;> rfl

/-- A concrete qualifying message: native video flag set, photo media. -/
def vidMsg : Message := { media := some .photo, video := true }

/-- A transport behaviour that rate-limits the first attempt (wait 7) and
succeeds afterwards. -/
def fwTrace : Nat → Option ForwardFailure :=
  fun n => if n = 1 then some (.floodWait 7) else none

/-- A production configuration with two unset required variables. -/
def cMissing : ProdConfig :=
  { api_id := none, api_hash := some "h", phone_number := none,
    source_channel := some "src", dest_channel := some "dst" }

/-- A Render configuration whose only flaw is an unset `SOURCE_CHANNEL`. -/
def cRenderBad : RenderConfig :=
  { api_id := some "123", api_hash := some "h", session_string := some "sess",
    source_channel := none, dest_channel := some "456" }

/-! ## Claims -/

/-- C1: every run of the delivery engine terminates with exactly one counter
incremented — the forwarded counter exactly when the outcome is `Delivered`,
the error counter on every other terminal branch — and, at the handler
level, a qualifying item always moves the sum of the two bot counters up by
exactly one. -/
theorem engine_increments_exactly_one_counter (N D : Nat) :
    (∀ (trace : Nat → Option ForwardFailure) (a : Nat),
      ((forwardWithRetry N D trace a).outcome = .Delivered ∧
        (forwardWithRetry N D trace a).forwardedInc = 1 ∧
        (forwardWithRetry N D trace a).errorInc = 0) ∨
      ((forwardWithRetry N D trace a).outcome ≠ .Delivered ∧
        (forwardWithRetry N D trace a).forwardedInc = 0 ∧
        (forwardWithRetry N D trace a).errorInc = 1)) ∧
    (∀ (st : BotState) (ev : RelayEvent), (classifyTvf ev.1).isSome = true →
      (handler N D st ev).forwarded_count + (handler N D st ev).error_count =
        st.forwarded_count + st.error_count + 1) := by
  constructor
  · intro trace a
    exact forwardGo_one_increment D trace (N - a) a
  · intro st ev hq
    unfold handler
    cases hc : classifyTvf ev.1 with
    | none => rw [hc] at hq; simp at hq
    | some lbl =>
      rcases forwardGo_one_increment D ev.2 (N - 1) 1 with ⟨_, h2, h3⟩ | ⟨_, h2, h3⟩ <;>
        · simp only [applyRun]
          rw [show forwardWithRetry N D ev.2 1 = forwardGo D ev.2 (N - 1) 1 from rfl,
            h2, h3]
          omega

/-- C1 witness: a qualifying video item whose delivery fails on every
attempt moves the counter sum of a fresh bot from 0 to 1. -/
theorem engine_increments_exactly_one_counter_witness :
    (handler 3 5 ⟨true, 0, 0⟩ (vidMsg, fun _ => some .rpc)).forwarded_count +
      (handler 3 5 ⟨true, 0, 0⟩ (vidMsg, fun _ => some .rpc)).error_count = 0 + 0 + 1 :=
  (engine_increments_exactly_one_counter 3 5).2 ⟨true, 0, 0⟩
    (vidMsg, fun _ => some .rpc) rfl

/-- C2: with `MAX_RETRIES = 3` and `RETRY_DELAY = 5`, a delivery failing
with a generic `RPCError` on every attempt sleeps 5 s after attempt 1 and
10 s after attempt 2 (delay `D * 2 ** (attempt - 1)`), makes exactly 3
forward attempts, returns Abandoned, and increments the error counter
exactly once, at final abandonment. -/
theorem generic_error_exponential_backoff_run :
    forwardWithRetry 3 5 (fun _ => some .rpc) 1 =
      { outcome := .Abandoned, forwardedInc := 0, errorInc := 1,
        sleeps := [5, 10], attemptsMade := 3 } := by decide

/-- C3 counterexample: an unclassified failure (`except Exception`, not an
`RPCError`) is **not** retried: with `N = 3`, `D = 5`, the engine makes a
single forward attempt, sleeps nothing, and abandons at once — not the
3 attempts with backoff the claim asserts. -/
theorem unclassified_failure_not_retried_cex :
    forwardWithRetry 3 5 (fun _ => some .unexpected) 1 =
      { outcome := .Abandoned, forwardedInc := 0, errorInc := 1,
        sleeps := [], attemptsMade := 1 } ∧
    (forwardWithRetry 3 5 (fun _ => some .unexpected) 1).attemptsMade ≠ 3 := by
  decide

/-- C3 amended: a delivery failure outside the named taxonomy (the final
`except Exception` clause) is logged and abandoned immediately: one forward
attempt, no sleep, one error increment — only `RPCError` gets the backoff
retries. -/
theorem unclassified_failure_abandons_immediately (N D a : Nat)
    (trace : Nat → Option ForwardFailure) (ht : trace a = some .unexpected) :
    forwardWithRetry N D trace a =
      { outcome := .Abandoned, forwardedInc := 0, errorInc := 1,
        sleeps := [], attemptsMade := 1 } := by
  rw [forwardWithRetry_eq, ht]
  rfl

/-- C3 amended witness: concrete unclassified failure at attempt 2. -/
theorem unclassified_failure_abandons_immediately_witness :
    forwardWithRetry 3 5 (fun _ => some .unexpected) 2 =
      { outcome := .Abandoned, forwardedInc := 0, errorInc := 1,
        sleeps := [], attemptsMade := 1 } :=
  unclassified_failure_abandons_immediately 3 5 2 (fun _ => some .unexpected) rfl

/-- C4: on a document attachment with an absent MIME string (and no native
video flag), the Render variant's classifier (`main.py` line 120,
`mime_type.startswith` with no `None` guard) raises an `AttributeError`
instead of returning non-qualifying, while the production variant's
classifier returns non-qualifying without failing — the code in `main.py`
contradicts the stated (and elsewhere implemented) intent. -/
theorem absent_mime_raises_in_render_classifier :
    classifyMain { media := some (.document none), video := false } = .error () ∧
    classifyTvf { media := some (.document none), video := false } = none :=
  ⟨rfl, rfl⟩

/-- C5: a rate-limit (`FloodWaitError`) or slow-mode (`SlowModeWaitError`)
failure at an attempt strictly below `MAX_RETRIES` makes the engine sleep
exactly the server wait `w` and then re-enter at `attempt + 1`; the
continuation is `forwardWithRetry` at `attempt + 1`, which does not depend
on `w`, so `w` is never fed into the exponential backoff formula. -/
theorem ratelimit_sleeps_then_retries (N D a w : Nat)
    (trace : Nat → Option ForwardFailure) (h : a < N)
    (ht : trace a = some (.floodWait w) ∨ trace a = some (.slowMode w)) :
    forwardWithRetry N D trace a =
      retryStep w (forwardWithRetry N D trace (a + 1)) := by
  rcases ht with ht | ht <;> rw [forwardWithRetry_eq, ht] <;> simp [if_pos h]

/-- C5 witness: rate-limited with wait 7 at attempt 1 of 3. -/
theorem ratelimit_sleeps_then_retries_witness :
    forwardWithRetry 3 5 fwTrace 1 = retryStep 7 (forwardWithRetry 3 5 fwTrace 2) :=
  ratelimit_sleeps_then_retries 3 5 1 7 fwTrace (by decide) (Or.inl rfl)

/-- C6: `ChatWriteForbiddenError` or `UserBannedInChannelError` at any
attempt number terminates the engine immediately with `FatalPermission`:
no sleep, exactly one forward attempt, error counter incremented exactly
once. -/
theorem permission_failure_fatal_immediately (N D a : Nat)
    (trace : Nat → Option ForwardFailure)
    (ht : trace a = some .chatWriteForbidden ∨
      trace a = some .userBannedInChannel) :
    forwardWithRetry N D trace a =
      { outcome := .FatalPermission, forwardedInc := 0, errorInc := 1,
        sleeps := [], attemptsMade := 1 } := by
  rcases ht with ht | ht <;> rw [forwardWithRetry_eq, ht] <;> rfl

/-- C6 witness: write-forbidden at attempt 1. -/
theorem permission_failure_fatal_immediately_witness :
    forwardWithRetry 3 5 (fun _ => some .chatWriteForbidden) 1 =
      { outcome := .FatalPermission, forwardedInc := 0, errorInc := 1,
        sleeps := [], attemptsMade := 1 } :=
  permission_failure_fatal_immediately 3 5 1 (fun _ => some .chatWriteForbidden)
    (Or.inl rfl)

/-- C7: per-item failures never escape the notification handler: the relay
loop records one outcome per notification (none is dropped), the running
flag is untouched by any number of notifications whatever their delivery
outcomes, and handling one notification hands control to the rest of the
stream unconditionally. -/
theorem relay_survives_item_failures (N D : Nat) (st : BotState)
    (evs : List RelayEvent) :
    (runRelay N D st evs).1.is_running = st.is_running ∧
    (runRelay N D st evs).2.length = evs.length ∧
    ∀ ev rest, (runRelay N D st (ev :: rest)).1 =
      (runRelay N D (handler N D st ev) rest).1 := by
  refine ⟨?_, ?_, ?_⟩
  · induction evs generalizing st with
    | nil => rfl
    | cons ev rest ih =>
      rw [runRelay]
      exact (ih (handler N D st ev)).trans (handler_preserves_running N D st ev)
  · induction evs generalizing st with
    | nil => rfl
    | cons ev rest ih =>
      rw [runRelay]
      exact congrArg Nat.succ (ih (handler N D st ev))
  · intro ev rest
    rfl

/-- C8 counterexample: in the Render entry point, the configuration
`cRenderBad` (only `SOURCE_CHANNEL` unset) performs the connection before
the fatal exit, and the exit carries a single entity-load diagnostic, not an
enumeration of missing keys — refuting "no connection … is performed" and
"enumerates every missing key" for that startup path. -/
theorem missing_key_connects_in_render_cex :
    (renderStart cRenderBad).1 = [Act.connect] ∧
    (renderStart cRenderBad).2 = some .entityLoadError := by
  constructor <;> rfl

/-- C8 amended: in the production entry point, any configuration with unset
required variables stops at `validate_config` with the full list of missing
keys (every untruthy required variable appears in the list) and a fatal
exit before any connection, verification or subscription; the Render entry
point checks only `SESSION_STRING` before connecting. -/
theorem missing_keys_fatal_enumerated_in_prod (c : ProdConfig)
    (h : missingVars c ≠ []) :
    prodMain c = ([], some (.missingKeys (missingVars c))) ∧
    ∀ kv ∈ requiredVars c, pyTruthyStr kv.2 = false → kv.1 ∈ missingVars c := by
  constructor
  · unfold prodMain validate_config
    rw [if_pos h]
  · intro kv hkv hfalse
    unfold missingVars
    exact List.mem_map_of_mem _ (List.mem_filter.mpr ⟨hkv, by simp [hfalse]⟩)

/-- C8 amended witness: with `TELEGRAM_API_ID` and `TELEGRAM_PHONE_NUMBER`
unset, production startup exits listing both and performs no action. -/
theorem missing_keys_fatal_enumerated_in_prod_witness :
    prodMain cMissing = ([], some (.missingKeys (missingVars cMissing))) ∧
    ∀ kv ∈ requiredVars cMissing, pyTruthyStr kv.2 = false →
      kv.1 ∈ missingVars cMissing :=
  missing_keys_fatal_enumerated_in_prod cMissing (by decide)

/-- C9: starting at attempt 1 with `MAX_RETRIES = N ≥ 1`, the engine makes
at most `N` forward attempts; the retry recursion is bounded (each retry
re-enters at `attempt + 1`, see `forwardWithRetry_eq`). -/
theorem engine_terminates_within_max_attempts (N D : Nat)
    (trace : Nat → Option ForwardFailure) (h : 1 ≤ N) :
    (forwardWithRetry N D trace 1).attemptsMade ≤ N := by
  have hb := forwardGo_attempts_le D trace (N - 1) 1
  unfold forwardWithRetry
  omega

/-- C9 witness: always-failing generic errors with `N = 3` make at most 3
attempts. -/
theorem engine_terminates_within_max_attempts_witness :
    (forwardWithRetry 3 5 (fun _ => some .rpc) 1).attemptsMade ≤ 3 :=
  engine_terminates_within_max_attempts 3 5 (fun _ => some .rpc) (by decide)

/-- C10: on a rate-limit or slow-mode failure the code sleeps the full
server wait `w` **before** consulting `attempt < MAX_RETRIES`, so when the
attempt number has already reached the budget it still sleeps `w` and only
then abandons, without a further forward attempt. -/
theorem ratelimit_wait_honored_at_final_attempt (N D a w : Nat)
    (trace : Nat → Option ForwardFailure)
    (ht : trace a = some (.floodWait w) ∨ trace a = some (.slowMode w))
    (h : ¬ a < N) :
    forwardWithRetry N D trace a =
      { outcome := .Abandoned, forwardedInc := 0, errorInc := 1,
        sleeps := [w], attemptsMade := 1 } := by
  rcases ht with ht | ht <;> rw [forwardWithRetry_eq, ht] <;>
    simp [if_neg h, abandonAfterWait]

/-- C10 witness: slow-mode wait 9 at attempt 3 of 3 still sleeps 9 s and
then abandons with a single attempt made. -/
theorem ratelimit_wait_honored_at_final_attempt_witness :
    forwardWithRetry 3 5 (fun _ => some (.slowMode 9)) 3 =
      { outcome := .Abandoned, forwardedInc := 0, errorInc := 1,
        sleeps := [9], attemptsMade := 1 } :=
  ratelimit_wait_honored_at_final_attempt 3 5 3 9 (fun _ => some (.slowMode 9))
    (Or.inr rfl) (by decide)
